import Mathlib

/-!
Shallow embedding of the `spawn-task-port` crate (src/lib.rs, src/stubs.rs).

The crate spawns a child process and obtains the child's Mach task port:
the parent allocates a receive right, registers a send right to it under a
random rendezvous name with the bootstrap server, and the child (in its
pre-exec callback) looks the name up and sends its own task port in a
complex Mach message; the parent blocks receiving that one message and
returns the embedded port.

The kernel calls are external effects; we model each call's outcome as a
field of an explicit environment and embed `spawn_get_task_port` (and the
pre-exec child callback) as pure functions of that environment, emitting a
trace of the kernel calls they issue.  Machine integers are `Nat`
(ports, sizes, bit masks) and `Int` (`kern_return_t`).
-/

namespace SpawnTaskPort

/-! ### Mach constants, as in `mach2` / the Mach headers used by the source -/

def KERN_SUCCESS : Int := 0

def MACH_PORT_NULL : Nat := 0

def MACH_PORT_RIGHT_RECEIVE : Nat := 1

def MACH_MSG_TYPE_COPY_SEND : Nat := 19

def MACH_MSG_TYPE_MAKE_SEND : Nat := 20

def MACH_MSGH_BITS_COMPLEX : Nat := 2147483648

def MACH_MSGH_BITS_REMOTE_MASK : Nat := 31

def MACH_SEND_MSG : Nat := 1

def MACH_RCV_MSG : Nat := 2

def MACH_MSG_TIMEOUT_NONE : Nat := 0

def TASK_BOOTSTRAP_PORT : Nat := 4

/-- MACH_RCV_TOO_LARGE, 0x10004004: the receive buffer cannot hold the
incoming message plus the requested trailer. -/
def MACH_RCV_TOO_LARGE : Int := 268451844

/-- mach_msg_port_descriptor_t type tag for a single port descriptor. -/
def MACH_MSG_PORT_DESCRIPTOR : Nat := 0

/-- stubs.rs: `MACH_RCV_TRAILER_AUDIT = 3`. -/
def MACH_RCV_TRAILER_AUDIT : Nat := 3

/-- stubs.rs: `(remote) & MACH_MSGH_BITS_REMOTE_MASK`. -/
def MACH_MSGH_BITS_REMOTE (remote : Nat) : Nat :=
  remote &&& MACH_MSGH_BITS_REMOTE_MASK

/-- stubs.rs: `((msg_type) & 0xf) << 28`. -/
def MACH_RCV_TRAILER_TYPE (msg_type : Nat) : Nat :=
  (msg_type &&& 15) <<< 28

/-- stubs.rs: `((msg_elems) & 0xf) << 24`. -/
def MACH_RCV_TRAILER_ELEMENTS (msg_elems : Nat) : Nat :=
  (msg_elems &&& 15) <<< 24

/-! ### Message layout (stubs.rs `mach_msg_send_t` / `mach_msg_recv_t`)

Byte sizes of the `#[repr(C)]` structs: `mach_msg_header_t` is six 32-bit
fields (24 bytes), `mach_msg_body_t` one (4 bytes),
`mach_msg_port_descriptor_t` is 12 bytes (u32 name, u32 pad1, u16 pad2,
u8 disposition, u8 kind), `mach_msg_trailer_t` 8 bytes, and
`mach_msg_audit_trailer_t` (stubs.rs) is 4+4+4+8+32 = 52 bytes. -/

def size_of_mach_msg_header_t : Nat := 24

def size_of_mach_msg_body_t : Nat := 4

def size_of_mach_msg_port_descriptor_t : Nat := 12

def size_of_mach_msg_trailer_t : Nat := 8

def size_of_mach_msg_audit_trailer_t : Nat := 52

/-- size_of for stubs.rs `mach_msg_send_t` = header + body + one descriptor. -/
def size_of_mach_msg_send_t : Nat :=
  size_of_mach_msg_header_t + size_of_mach_msg_body_t +
    size_of_mach_msg_port_descriptor_t

/-- size of the trailer member of `mach_msg_recv_t`: the audit trailer when
the `audit_pid` feature is on, the minimal trailer otherwise. -/
def trailer_size (audit : Bool) : Nat :=
  if audit then size_of_mach_msg_audit_trailer_t else size_of_mach_msg_trailer_t

/-- size_of for stubs.rs `mach_msg_recv_t` = header + body + descriptor +
trailer (the trailer variant is chosen by the `audit_pid` feature). -/
def size_of_mach_msg_recv_t (audit : Bool) : Nat :=
  size_of_mach_msg_send_t + trailer_size audit

structure mach_msg_header_t where
  msgh_bits : Nat
  msgh_size : Nat
  msgh_remote_port : Nat
  msgh_local_port : Nat
  msgh_voucher_port : Nat
  msgh_id : Int
  deriving DecidableEq

structure mach_msg_body_t where
  msgh_descriptor_count : Nat
  deriving DecidableEq

structure mach_msg_port_descriptor_t where
  name : Nat
  pad1 : Nat
  pad2 : Nat
  disposition : Nat
  kind : Nat
  deriving DecidableEq

/-- mach_msg_port_descriptor_t::new(port, disposition) from the mach2 crate:
zero padding, descriptor type MACH_MSG_PORT_DESCRIPTOR. -/
def mach_msg_port_descriptor_new (port disposition : Nat) :
    mach_msg_port_descriptor_t :=
  { name := port, pad1 := 0, pad2 := 0, disposition := disposition,
    kind := MACH_MSG_PORT_DESCRIPTOR }

structure mach_msg_send_t where
  msg_header : mach_msg_header_t
  msg_body : mach_msg_body_t
  task_port : mach_msg_port_descriptor_t
  deriving DecidableEq

/-- lib.rs lines 226-243: the message the child builds in the pre-exec
callback, destined for the parent port obtained from `bootstrap_look_up`,
carrying the child's own task port (`mach_task_self()`). -/
def child_msg (parent_port task_self : Nat) : mach_msg_send_t :=
  { msg_header :=
      { msgh_bits :=
          MACH_MSGH_BITS_REMOTE MACH_MSG_TYPE_COPY_SEND ||| MACH_MSGH_BITS_COMPLEX,
        msgh_size := size_of_mach_msg_send_t,
        msgh_remote_port := parent_port,
        msgh_local_port := MACH_PORT_NULL,
        msgh_voucher_port := MACH_PORT_NULL,
        msgh_id := 0 },
    msg_body := { msgh_descriptor_count := 1 },
    task_port := mach_msg_port_descriptor_new task_self MACH_MSG_TYPE_COPY_SEND }

/-! ### Rendezvous name: `Uuid::new_v4().simple().to_string()`

The uuid crate draws 16 random bytes, forces the RFC 4122 version nibble
(byte 6 high nibble to 4) and variant bits (byte 8 top two bits to 10),
and `simple()` renders the 16 bytes as 32 lowercase hex digits. -/

/-- lowercase hex digit character for a nibble: '0'..'9' are codes 48..57,
'a'..'f' are codes 97..102 (= 87 + d for d in 10..15). -/
def hexChar (d : Nat) : Char :=
  if d < 10 then Char.ofNat (48 + d) else Char.ofNat (87 + d)

/-- two lowercase hex digits per byte, in byte order. -/
def hexChars (bs : List Nat) : List Char :=
  bs.foldr (fun b acc => hexChar (b / 16) :: hexChar (b % 16) :: acc) []

/-- the `simple` textual rendering of a 16-byte identifier. -/
def encodeSimple (bs : List Nat) : String :=
  ⟨hexChars bs⟩

/-- big-endian byte view of a 128-bit draw: byte 0 is the most
significant byte. -/
def bytesBE (r : Nat) : List Nat :=
  (List.range 16).map (fun i => (r >>> (8 * (15 - i))) &&& 255)

/-- Builder::from_random_bytes of the uuid crate: byte 6 becomes
`(b6 & 0x0f) | 0x40` (version 4) and byte 8 becomes `(b8 & 0x3f) | 0x80`
(RFC 4122 variant). -/
def setVersionVariant (bs : List Nat) : List Nat :=
  let bs1 := bs.set 6 ((bs.getD 6 0 &&& 15) ||| 64)
  bs1.set 8 ((bs1.getD 8 0 &&& 63) ||| 128)

/-- Uuid::new_v4 applied to a fresh 128-bit random draw `r`: the 16-byte
identifier with the version and variant bits forced. -/
def new_v4 (r : Nat) : List Nat :=
  setVersionVariant (bytesBE r)

/-- lib.rs line 183: `Uuid::new_v4().simple().to_string()`, as a function
of the 128-bit random draw. -/
def rendezvousName (r : Nat) : String :=
  encodeSimple (new_v4 r)

/-- CString::new on the name (lib.rs line 184): fails exactly when the
string contains an interior NUL byte.  The names produced here are pure
ASCII, so the byte-level check coincides with this character-level one. -/
def cstringNew (s : String) : Option String :=
  if s.data.any (fun c => c.toNat == 0) then none else some s

/-! ### Environment, events, errors -/

/-- Outcomes of the kernel calls issued by the child-side pre-exec
callback (lib.rs lines 204-254), one field per call: `special_ret` and
`bootstrap_port` are the status and output of the child's own
`task_get_special_port(mach_task_self(), TASK_BOOTSTRAP_PORT)`,
`look_up_ret` / `parent_port` those of `bootstrap_look_up`, `send_ret`
the status of the `mach_msg` send, `task_self` the child's
`mach_task_self()`, and `dealloc_ret` the (ignored) status of the
`mach_port_deallocate` issued when the `MachPort` wrapper around
`parent_port` is dropped. -/
structure ChildEnv where
  special_ret : Int
  bootstrap_port : Nat
  look_up_ret : Int
  parent_port : Nat
  send_ret : Int
  task_self : Nat
  dealloc_ret : Int
  deriving DecidableEq

/-- the message sitting first in the parent's receive queue: its
`msgh_size` as delivered, the port name carried in its descriptor words
(meaningful when the message is large enough to contain the whole
descriptor), and the kernel-supplied audit token of whatever process sent
it (not part of the message body, never chosen by the sender). -/
structure IncomingMsg where
  size : Nat
  descName : Nat
  senderToken : List Nat
  deriving DecidableEq

/-- Outcomes of the kernel calls and external effects of
`spawn_get_task_port` in the parent (lib.rs lines 159-298):
`alloc_ret` / `alloc_port` for `mach_port_allocate`, `insert_ret` for
`mach_port_insert_right`, `random` the 128-bit draw behind
`Uuid::new_v4`, `special_ret` / `bootstrap_port` for the parent's
`task_get_special_port`, `register_ret` for `bootstrap_register2`,
`spawn_sys_err` an OS-level spawn failure unrelated to the pre-exec
callback, `child` the child-side call outcomes, `child_pid` the pid of
the spawned child (`child.id()`), `incoming` the first message queued on
the receive port, and `dealloc_ret` the (ignored) status of the
`mach_port_deallocate` run when the parent's `MachPort` drops. -/
structure Env where
  alloc_ret : Int
  alloc_port : Nat
  insert_ret : Int
  random : Nat
  special_ret : Int
  bootstrap_port : Nat
  register_ret : Int
  spawn_sys_err : Option String
  child : ChildEnv
  child_pid : Nat
  incoming : IncomingMsg
  dealloc_ret : Int
  deriving DecidableEq

/-- std::process::Child, reduced to the only observation the source makes
of it: `child.id()`. -/
structure Child where
  id : Nat
  deriving DecidableEq

/-- errors of the embedded functions, mirroring the `std::io::Error`
values the source constructs: `ktry` for the macro wrapping a failed
kernel call, `cstring` for the name-encoding failure at lib.rs line 184,
`identityMismatch` for the audit-pid check, `sys` for an OS-level spawn
failure surfaced by `Command::spawn`. -/
inductive SpawnErr where
  | ktry (op : String) (kr : Int)
  | cstring
  | identityMismatch (expected got : Nat)
  | sys (msg : String)
  deriving DecidableEq

/-- message text of each error, as the source formats it; the
`identityMismatch` text is the format string at lib.rs lines 287-291. -/
def SpawnErr.message : SpawnErr → String
  | .ktry op kr => "`" ++ op ++ "` failed with return code " ++ toString kr
  | .cstring => "CString"
  | .identityMismatch expected got =>
      "expected task port for child pid " ++ toString expected ++
        ", got pid " ++ toString got ++ " instead"
  | .sys msg => msg

/-- kernel calls, as recorded in a per-process trace.  `deallocate` also
records the (ignored) status the call returned; `msg_rcv` records the
receive port, the receive buffer size, the timeout and the option bits. -/
inductive Event where
  | deallocate (port : Nat) (ret : Int)
  | get_special_port (task which : Nat)
  | look_up (bootstrap : Nat) (name : String)
  | register (bootstrap : Nat) (name : String) (port : Nat)
  | msg_send (dest : Nat)
  | msg_rcv (port rcv_size timeout options : Nat)
  deriving DecidableEq

/-- receive option word passed to the parent's `mach_msg` (lib.rs lines
262-270): `MACH_RCV_MSG`, plus the audit-trailer request when the
`audit_pid` feature is on. -/
def rcv_options (audit : Bool) : Nat :=
  MACH_RCV_MSG |||
    (if audit then
      MACH_RCV_TRAILER_TYPE MACH_RCV_TRAILER_AUDIT |||
        MACH_RCV_TRAILER_ELEMENTS MACH_RCV_TRAILER_AUDIT
    else 0)

/-! ### The child-side pre-exec callback -/

/-- Embedding of the closure passed to `pre_exec` (lib.rs lines 204-254):
fetch the child's own bootstrap port, look the rendezvous name up, build
`child_msg` and send it; `ktry` turns the first failing kernel status
into an early error return.  The `MachPort` wrapper around the looked-up
parent port is dropped (one `mach_port_deallocate`) on every path that
constructed it. -/
def childCallback (name : String) (e : ChildEnv) :
    Except SpawnErr Unit × List Event :=
  let ev1 := Event.get_special_port e.task_self TASK_BOOTSTRAP_PORT
  if e.special_ret ≠ KERN_SUCCESS then
    (.error (.ktry ("task_get_special_port") e.special_ret), [ev1])
  else
    let ev2 := Event.look_up e.bootstrap_port name
    if e.look_up_ret ≠ KERN_SUCCESS then
      (.error (.ktry ("bootstrap_look_up") e.look_up_ret), [ev1, ev2])
    else
      let msg := child_msg e.parent_port e.task_self
      let ev3 := Event.msg_send msg.msg_header.msgh_remote_port
      let ev4 := Event.deallocate e.parent_port e.dealloc_ret
      if e.send_ret ≠ KERN_SUCCESS then
        (.error (.ktry ("mach_msg") e.send_ret), [ev1, ev2, ev3, ev4])
      else
        (.ok (), [ev1, ev2, ev3, ev4])

/-- whether the child goes on to exec the target program: the std
process-spawn machinery runs `exec` only when every pre-exec hook
returned Ok, and otherwise reports the hook's error back to the parent,
whose `spawn()` call returns it. -/
def execReached (name : String) (e : ChildEnv) : Bool :=
  match (childCallback name e).1 with
  | .ok _ => true
  | .error _ => false

/-! ### The parent's receive -/

/-- portion of the received `mach_msg_recv_t` the source reads: the port
descriptor's `name` field and (audit builds) the trailer's audit token. -/
structure RecvView where
  task_port_name : Nat
  audit_token : List Nat
  deriving DecidableEq

/-- Mach receive semantics for the parent's `mach_msg` call: the kernel
rejects the message with MACH_RCV_TOO_LARGE when the message plus the
requested trailer exceeds the receive buffer
(`size_of_mach_msg_recv_t audit`); otherwise the message bytes are copied
over the zero-initialized buffer, so the descriptor name field holds the
delivered descriptor's port when the message contains the whole
descriptor (`size_of_mach_msg_send_t` bytes) and stays zero when the
message is shorter.  The kernel appends the sender's audit token as the
trailer. -/
def mach_msg_receive (audit : Bool) (m : IncomingMsg) :
    Except Int RecvView :=
  if size_of_mach_msg_recv_t audit < m.size + trailer_size audit then
    .error MACH_RCV_TOO_LARGE
  else
    .ok { task_port_name := if size_of_mach_msg_send_t ≤ m.size then m.descName else 0,
          audit_token := m.senderToken }

/-- libbsm `audit_token_to_pid`: the pid lives in word 5 of the audit
token. -/
def audit_token_to_pid (token : List Nat) : Nat :=
  token.getD 5 0

/-! ### spawn_get_task_port -/

/-- Embedding of `spawn_get_task_port` (lib.rs lines 159-298), with the
`audit_pid` feature as the `audit` flag: allocate the receive port and
wrap it (`MachPort`), insert a send right, render the rendezvous name and
convert it to a C string, fetch the parent's bootstrap port, register the
name, spawn (running `childCallback` in the child; a callback error is
returned from `spawn()` and propagated by `?`), then block receiving one
message and, on audit builds, compare the trailer pid against
`child.id()`.  Every path after the allocation ends by dropping the
`MachPort`, i.e. one `mach_port_deallocate` whose status is ignored.
The trace lists the parent-process kernel calls the claims examine. -/
def spawn_get_task_port (audit : Bool) (env : Env) :
    Except SpawnErr (Child × Nat) × List Event :=
  if env.alloc_ret ≠ KERN_SUCCESS then
    (.error (.ktry ("mach_port_allocate") env.alloc_ret), [])
  else
    let port := env.alloc_port
    let drop := Event.deallocate port env.dealloc_ret
    if env.insert_ret ≠ KERN_SUCCESS then
      (.error (.ktry ("mach_port_insert_right") env.insert_ret), [drop])
    else
      let uuid := rendezvousName env.random
      match cstringNew uuid with
      | none => (.error .cstring, [drop])
      | some name =>
        if env.special_ret ≠ KERN_SUCCESS then
          (.error (.ktry ("task_get_special_port") env.special_ret), [drop])
        else
          let evr := Event.register env.bootstrap_port name port
          if env.register_ret ≠ KERN_SUCCESS then
            (.error (.ktry ("bootstrap_register2") env.register_ret), [evr, drop])
          else
            match env.spawn_sys_err with
            | some msg => (.error (.sys msg), [evr, drop])
            | none =>
              match (childCallback name env.child).1 with
              | .error e => (.error e, [evr, drop])
              | .ok _ =>
                let child : Child := ⟨env.child_pid⟩
                let evm := Event.msg_rcv port (size_of_mach_msg_recv_t audit)
                  MACH_MSG_TIMEOUT_NONE (rcv_options audit)
                match mach_msg_receive audit env.incoming with
                | .error kr =>
                    (.error (.ktry ("mach_msg") kr), [evr, evm, drop])
                | .ok msg =>
                    if audit ∧ audit_token_to_pid msg.audit_token ≠ child.id then
                      (.error (.identityMismatch child.id
                        (audit_token_to_pid msg.audit_token)), [evr, evm, drop])
                    else
                      (.ok (child, msg.task_port_name), [evr, evm, drop])

/-! ### Properties of the rendezvous-name encoding -/

theorem hexChars_cons (a : Nat) (as : List Nat) :
    hexChars (a :: as) = hexChar (a / 16) :: hexChar (a % 16) :: hexChars as :=
  rfl

theorem hexChar_inj : ∀ a < 16, ∀ b < 16, hexChar a = hexChar b → a = b := by
  decide

theorem hexChar_toNat_ne_zero : ∀ d < 16, (hexChar d).toNat ≠ 0 := by
  decide

theorem bytesBE_mem_lt (r : Nat) : ∀ x ∈ bytesBE r, x < 256 := by
  intro x hx
  simp only [bytesBE, List.mem_map] at hx
  obtain ⟨i, _, rfl⟩ := hx
  have h : (r >>> (8 * (15 - i))) &&& 255 ≤ 255 := Nat.and_le_right
  omega

theorem new_v4_mem_lt (r : Nat) : ∀ x ∈ new_v4 r, x < 256 := by
  intro x hx
  simp only [new_v4, setVersionVariant] at hx
  rcases List.mem_or_eq_of_mem_set hx with hx1 | rfl
  · rcases List.mem_or_eq_of_mem_set hx1 with hx2 | rfl
    · exact bytesBE_mem_lt r x hx2
    · have h1 : (bytesBE r).getD 6 0 &&& 15 < 2 ^ 8 :=
        lt_of_le_of_lt Nat.and_le_right (by norm_num)
      have h2 := Nat.or_lt_two_pow h1 (by norm_num : (64 : Nat) < 2 ^ 8)
      simpa using h2
  · have h1 : ((bytesBE r).set 6 ((bytesBE r).getD 6 0 &&& 15 ||| 64)).getD 8 0 &&& 63 < 2 ^ 8 :=
      lt_of_le_of_lt Nat.and_le_right (by norm_num)
    have h2 := Nat.or_lt_two_pow h1 (by norm_num : (128 : Nat) < 2 ^ 8)
    simpa using h2

theorem hexChars_inj : ∀ b1 b2 : List Nat, (∀ x ∈ b1, x < 256) → (∀ x ∈ b2, x < 256) →
    hexChars b1 = hexChars b2 → b1 = b2 := by
  intro b1
  induction b1 with
  | nil =>
    intro b2 _ _ h
    cases b2 with
    | nil => rfl
    | cons b bs => simp [hexChars] at h
  | cons a as ih =>
    intro b2 hb1 hb2 h
    cases b2 with
    | nil => simp [hexChars] at h
    | cons b bs =>
      rw [hexChars_cons, hexChars_cons] at h
      injection h with hd h
      injection h with hd2 htl
      have ha : a < 256 := hb1 a (List.mem_cons_self _ _)
      have hb : b < 256 := hb2 b (List.mem_cons_self _ _)
      have e1 : a / 16 = b / 16 := hexChar_inj _ (by omega) _ (by omega) hd
      have e2 : a % 16 = b % 16 :=
        hexChar_inj _ (Nat.mod_lt _ (by norm_num)) _ (Nat.mod_lt _ (by norm_num)) hd2
      have hab : a = b := by omega
      subst hab
      have htail := ih bs (fun x hx => hb1 x (List.mem_cons_of_mem _ hx))
        (fun x hx => hb2 x (List.mem_cons_of_mem _ hx)) htl
      rw [htail]

theorem hexChars_toNat_ne_zero :
    ∀ bs : List Nat, (∀ x ∈ bs, x < 256) → ∀ c ∈ hexChars bs, c.toNat ≠ 0 := by
  intro bs
  induction bs with
  | nil =>
    intro _ c hc
    simp [hexChars] at hc
  | cons a as ih =>
    intro hbs c hc
    have ha : a < 256 := hbs a (List.mem_cons_self _ _)
    rw [hexChars_cons] at hc
    rcases List.mem_cons.mp hc with rfl | hc2
    · exact hexChar_toNat_ne_zero _ (by omega)
    · rcases List.mem_cons.mp hc2 with rfl | hc3
      · exact hexChar_toNat_ne_zero _ (Nat.mod_lt _ (by norm_num))
      · exact ih (fun x hx => hbs x (List.mem_cons_of_mem _ hx)) c hc3

theorem cstringNew_rendezvousName (r : Nat) :
    cstringNew (rendezvousName r) = some (rendezvousName r) := by
  unfold cstringNew
  rw [if_neg]
  intro hcontra
  have hdata : (rendezvousName r).data = hexChars (new_v4 r) := rfl
  rw [hdata, List.any_eq_true] at hcontra
  obtain ⟨c, hc, hz⟩ := hcontra
  exact hexChars_toNat_ne_zero _ (new_v4_mem_lt r) c hc (by simpa using hz)

theorem rendezvousName_eq_iff (r1 r2 : Nat) :
    rendezvousName r1 = rendezvousName r2 ↔ new_v4 r1 = new_v4 r2 := by
  constructor
  · intro h
    have h2 : hexChars (new_v4 r1) = hexChars (new_v4 r2) := congrArg String.data h
    exact hexChars_inj _ _ (new_v4_mem_lt r1) (new_v4_mem_lt r2) h2
  · intro h
    simp [rendezvousName, h]

/-! ### Helper lemmas about the embedded functions -/

/-- the child callback succeeds exactly when all three of its kernel calls
succeed. -/
theorem childCallback_ok_iff (name : String) (e : ChildEnv) :
    (childCallback name e).1 = .ok () ↔
      e.special_ret = KERN_SUCCESS ∧ e.look_up_ret = KERN_SUCCESS ∧
        e.send_ret = KERN_SUCCESS := by
  unfold childCallback
  repeat' split
  all_goals simp_all

/-- every error of the child callback is a `ktry` error (a failed kernel
call). -/
theorem childCallback_error_ktry (name : String) (e : ChildEnv) (err : SpawnErr)
    (h : (childCallback name e).1 = .error err) : ∃ op kr, err = .ktry op kr := by
  unfold childCallback at h
  repeat' split at h
  all_goals simp_all
  all_goals exact ⟨_, _, h.symm⟩

/-- a successful spawn_get_task_port implies the child callback returned Ok. -/
theorem spawn_success_child_ok (audit : Bool) (env : Env) (x : Child × Nat)
    (h : (spawn_get_task_port audit env).1 = .ok x) :
    (childCallback (rendezvousName env.random) env.child).1 = .ok () := by
  cases hcb : (childCallback (rendezvousName env.random) env.child).1 with
  | ok a => cases a; rfl
  | error e =>
    exfalso
    unfold spawn_get_task_port at h
    repeat' split at h
    all_goals simp_all [cstringNew_rendezvousName, hcb]

/-! ### Concrete environments used by the witnesses and counterexamples -/

/-- an environment in which every call succeeds: the child's message (40
bytes, descriptor port 9) arrives from the child itself (pid 5, audit
token word 5 = 5). -/
def envOK : Env :=
  { alloc_ret := 0, alloc_port := 7, insert_ret := 0, random := 0,
    special_ret := 0, bootstrap_port := 1, register_ret := 0,
    spawn_sys_err := none,
    child := { special_ret := 0, bootstrap_port := 2, look_up_ret := 0,
               parent_port := 3, send_ret := 0, task_self := 4, dealloc_ret := 0 },
    child_pid := 5,
    incoming := { size := 40, descName := 9, senderToken := [0, 0, 0, 0, 0, 5, 0, 0] },
    dealloc_ret := 0 }

/-- same as `envOK` but the queued message is a minimal 24-byte message
(header only), i.e. shorter than a `TaskHandleMessage`. -/
def envUndersized : Env :=
  { envOK with incoming := { size := 24, descName := 9, senderToken := [] } }

/-- same as `envOK` but the queued message was sent by pid 6, not the
spawned child (pid 5). -/
def envMismatch : Env :=
  { envOK with incoming := { size := 40, descName := 9, senderToken := [0, 0, 0, 0, 0, 6, 0, 0] } }

/-- same as `envOK` but the child's `bootstrap_look_up` fails. -/
def envChildFail : Env :=
  { envOK with
    child := { special_ret := 0, bootstrap_port := 2, look_up_ret := 1100,
               parent_port := 3, send_ret := 0, task_self := 4, dealloc_ret := 0 } }

/-! ### Claim theorems -/

/-- Claim C1: on every successful call, `spawn_get_task_port` returns the
child handle produced by the spawn (pid `env.child_pid`) together with
exactly the port capability carried in the port descriptor of the single
message received on the rendezvous channel. -/
theorem C1_success_returns_child_and_received_port (audit : Bool) (env : Env)
    (c : Child) (p : Nat)
    (h : (spawn_get_task_port audit env).1 = .ok (c, p)) :
    c = ⟨env.child_pid⟩ ∧
      ∃ msg, mach_msg_receive audit env.incoming = .ok msg ∧
        p = msg.task_port_name := by
  have hcb := spawn_success_child_ok audit env (c, p) h
  cases hrcv : mach_msg_receive audit env.incoming with
  | error kr =>
    exfalso
    unfold spawn_get_task_port at h
    repeat' split at h
    all_goals simp_all [hcb, hrcv, cstringNew_rendezvousName]
  | ok msg =>
    unfold spawn_get_task_port at h
    repeat' split at h
    all_goals simp_all [hcb, hrcv, cstringNew_rendezvousName]
    all_goals (repeat' split at h)
    all_goals simp_all

/-- witness for C1 on the all-success environment `envOK`. -/
theorem C1_witness :
    ((spawn_get_task_port false envOK).1 = .ok (⟨5⟩, 9)) ∧
      ((⟨5⟩ : Child) = ⟨envOK.child_pid⟩ ∧
        ∃ msg, mach_msg_receive false envOK.incoming = .ok msg ∧
          9 = msg.task_port_name) :=
  ⟨rfl, C1_success_returns_child_and_received_port false envOK ⟨5⟩ 9 rfl⟩

/-- predicate picking the `mach_msg` receive events out of a trace. -/
def isRcv : Event → Bool
  | .msg_rcv _ _ _ _ => true
  | _ => false

/-- Claim C2 (amended): the parent's receive blocks with no timeout for
exactly one message on the allocated port, with a buffer sized to exactly
fit one `mach_msg_recv_t`; an incoming message larger than the buffer
minus the requested trailer fails the receive with MACH_RCV_TOO_LARGE
rather than being truncated, while a message that fits — including an
undersized one — is accepted. -/
theorem C2_receive_exact_fit :
    (∀ audit env,
        (spawn_get_task_port audit env).2.filter isRcv = [] ∨
          (spawn_get_task_port audit env).2.filter isRcv =
            [Event.msg_rcv env.alloc_port (size_of_mach_msg_recv_t audit)
              MACH_MSG_TIMEOUT_NONE (rcv_options audit)]) ∧
      (∀ audit m, size_of_mach_msg_recv_t audit < m.size + trailer_size audit →
        mach_msg_receive audit m = .error MACH_RCV_TOO_LARGE) ∧
      (∀ audit m, m.size + trailer_size audit ≤ size_of_mach_msg_recv_t audit →
        mach_msg_receive audit m =
          .ok { task_port_name := if size_of_mach_msg_send_t ≤ m.size then m.descName else 0,
                audit_token := m.senderToken }) := by
  refine ⟨?_, ?_, ?_⟩
  · intro audit env
    cases hcb : (childCallback (rendezvousName env.random) env.child).1 <;>
      (unfold spawn_get_task_port
       repeat' split) <;>
      simp_all [isRcv, cstringNew_rendezvousName] <;>
      (repeat' split) <;>
      simp_all [isRcv]
  · intro audit m h
    unfold mach_msg_receive
    rw [if_pos h]
  · intro audit m h
    unfold mach_msg_receive
    rw [if_neg (by omega)]

/-- witness for C2 on a 44-byte (oversized) and a fitting message. -/
theorem C2_witness :
    (size_of_mach_msg_recv_t false < 44 + trailer_size false ∧
      mach_msg_receive false { size := 44, descName := 9, senderToken := [] } =
        .error MACH_RCV_TOO_LARGE) ∧
      ((spawn_get_task_port false envOK).2.filter isRcv = [] ∨
        (spawn_get_task_port false envOK).2.filter isRcv =
          [Event.msg_rcv envOK.alloc_port (size_of_mach_msg_recv_t false)
            MACH_MSG_TIMEOUT_NONE (rcv_options false)]) :=
  ⟨⟨by decide,
    C2_receive_exact_fit.2.1 false { size := 44, descName := 9, senderToken := [] } (by decide)⟩,
    C2_receive_exact_fit.1 false envOK⟩

/-- counterexample to C2 as stated: an undersized 24-byte message (a bare
header, smaller than the 40-byte `mach_msg_send_t`) does not fail the
receive; the call succeeds and returns the null port read from the
zero-initialized buffer. -/
theorem C2_counterexample :
    envUndersized.incoming.size < size_of_mach_msg_send_t ∧
      mach_msg_receive false envUndersized.incoming =
        .ok { task_port_name := 0, audit_token := [] } ∧
      (spawn_get_task_port false envUndersized).1 = .ok (⟨5⟩, 0) :=
  ⟨by decide, rfl, rfl⟩

/-- numeric value of the header bits the child sets:
(19 masked to the low five bits) OR 0x80000000 = 0x80000013. -/
theorem msgh_bits_value :
    MACH_MSGH_BITS_REMOTE MACH_MSG_TYPE_COPY_SEND ||| MACH_MSGH_BITS_COMPLEX =
      2147483667 := by
  decide

/-- Claim C3: the message built by the child has header bits =
(copy-send disposition masked to the remote bits) OR the complex flag
(numerically 0x80000013), header size = size of the send struct (40
bytes), null local and voucher ports, message id 0, descriptor count 1,
and a single port descriptor carrying the child's own task port with
copy-send disposition. -/
theorem C3_child_message_layout (parent_port task_self : Nat) :
    (child_msg parent_port task_self).msg_header.msgh_bits =
        (MACH_MSGH_BITS_REMOTE MACH_MSG_TYPE_COPY_SEND ||| MACH_MSGH_BITS_COMPLEX) ∧
      (child_msg parent_port task_self).msg_header.msgh_bits = 2147483667 ∧
      (child_msg parent_port task_self).msg_header.msgh_size = size_of_mach_msg_send_t ∧
      (child_msg parent_port task_self).msg_header.msgh_size = 40 ∧
      (child_msg parent_port task_self).msg_header.msgh_remote_port = parent_port ∧
      (child_msg parent_port task_self).msg_header.msgh_local_port = MACH_PORT_NULL ∧
      (child_msg parent_port task_self).msg_header.msgh_voucher_port = MACH_PORT_NULL ∧
      (child_msg parent_port task_self).msg_header.msgh_id = 0 ∧
      (child_msg parent_port task_self).msg_body.msgh_descriptor_count = 1 ∧
      (child_msg parent_port task_self).task_port =
        mach_msg_port_descriptor_new task_self MACH_MSG_TYPE_COPY_SEND ∧
      (child_msg parent_port task_self).task_port.name = task_self ∧
      (child_msg parent_port task_self).task_port.disposition = MACH_MSG_TYPE_COPY_SEND :=
  ⟨rfl, msgh_bits_value, rfl, rfl, rfl, rfl, rfl, rfl, rfl, rfl, rfl, rfl⟩

/-- Claim C4: on audit builds, when the pid derived from the received
message's audit trailer differs from the pid of the spawned child, the
call returns an identity-mismatch error whose message names both pid
values, and no task port is returned. -/
theorem C4_audit_mismatch_rejected (env : Env) (msg : RecvView)
    (h1 : env.alloc_ret = KERN_SUCCESS) (h2 : env.insert_ret = KERN_SUCCESS)
    (h3 : env.special_ret = KERN_SUCCESS) (h4 : env.register_ret = KERN_SUCCESS)
    (h5 : env.spawn_sys_err = none)
    (h6 : (childCallback (rendezvousName env.random) env.child).1 = .ok ())
    (h7 : mach_msg_receive true env.incoming = .ok msg)
    (h8 : audit_token_to_pid msg.audit_token ≠ env.child_pid) :
    (spawn_get_task_port true env).1 =
        .error (.identityMismatch env.child_pid (audit_token_to_pid msg.audit_token)) ∧
      (SpawnErr.identityMismatch env.child_pid
          (audit_token_to_pid msg.audit_token)).message =
        "expected task port for child pid " ++ toString env.child_pid ++
          ", got pid " ++ toString (audit_token_to_pid msg.audit_token) ++ " instead" := by
  constructor
  · unfold spawn_get_task_port
    simp only [h1, h2, h3, h4, h5, cstringNew_rendezvousName, h6, h7]
    simp [h8]
  · rfl

/-- witness for C4: a 40-byte message from pid 6 while the child is
pid 5. -/
theorem C4_witness :
    audit_token_to_pid envMismatch.incoming.senderToken ≠ envMismatch.child_pid ∧
      (spawn_get_task_port true envMismatch).1 = .error (.identityMismatch 5 6) :=
  ⟨by decide,
    by
      have h := C4_audit_mismatch_rejected envMismatch
        { task_port_name := 9, audit_token := [0, 0, 0, 0, 0, 6, 0, 0] }
        rfl rfl rfl rfl rfl rfl rfl (by decide)
      exact h.1⟩

/-- Claim C5: if any of the three child-side steps fails (special-port
fetch, rendezvous-name lookup, or message send), the pre-exec callback
returns an error, the exec of the target program is not reached, and the
overall spawn_get_task_port call returns an error to the caller. -/
theorem C5_child_failure_aborts (audit : Bool) (env : Env)
    (h : env.child.special_ret ≠ KERN_SUCCESS ∨ env.child.look_up_ret ≠ KERN_SUCCESS ∨
      env.child.send_ret ≠ KERN_SUCCESS) :
    (∃ e, (childCallback (rendezvousName env.random) env.child).1 = .error e) ∧
      execReached (rendezvousName env.random) env.child = false ∧
      ∃ e, (spawn_get_task_port audit env).1 = .error e := by
  have hne : (childCallback (rendezvousName env.random) env.child).1 ≠ .ok () := by
    simp only [ne_eq, childCallback_ok_iff]
    tauto
  obtain ⟨e, he⟩ :
      ∃ e, (childCallback (rendezvousName env.random) env.child).1 = .error e := by
    cases hc : (childCallback (rendezvousName env.random) env.child).1 with
    | ok a => cases a; exact absurd hc hne
    | error e => exact ⟨e, rfl⟩
  refine ⟨⟨e, he⟩, ?_, ?_⟩
  · simp [execReached, he]
  · cases hr : (spawn_get_task_port audit env).1 with
    | error e2 => exact ⟨e2, rfl⟩
    | ok x => exact absurd (spawn_success_child_ok audit env x hr) hne

/-- witness for C5: the child's bootstrap_look_up fails with status
1100. -/
theorem C5_witness :
    envChildFail.child.look_up_ret ≠ KERN_SUCCESS ∧
      ((∃ e, (childCallback (rendezvousName envChildFail.random)
          envChildFail.child).1 = .error e) ∧
        execReached (rendezvousName envChildFail.random) envChildFail.child = false ∧
        ∃ e, (spawn_get_task_port false envChildFail).1 = .error e) :=
  ⟨by decide, C5_child_failure_aborts false envChildFail (.inr (.inl (by decide)))⟩

/-- predicate picking the `mach_port_deallocate` events for a given port
out of a trace. -/
def isDeallocOf (port : Nat) : Event → Bool
  | .deallocate p _ => p == port
  | _ => false

theorem parent_dealloc_count (audit : Bool) (env : Env) :
    (env.alloc_ret = KERN_SUCCESS →
        (spawn_get_task_port audit env).2.countP (isDeallocOf env.alloc_port) = 1 ∧
          (spawn_get_task_port audit env).2.getLast? =
            some (.deallocate env.alloc_port env.dealloc_ret)) ∧
      (env.alloc_ret ≠ KERN_SUCCESS →
        (spawn_get_task_port audit env).2.countP (isDeallocOf env.alloc_port) = 0) := by
  cases hcb : (childCallback (rendezvousName env.random) env.child).1 <;>
    (unfold spawn_get_task_port
     repeat' split) <;>
    constructor <;> intro h <;>
    simp_all [isDeallocOf, List.countP_cons, List.countP_nil] <;>
    (repeat' split) <;>
    simp_all [isDeallocOf, List.countP_cons, List.countP_nil]

theorem child_dealloc_count (name : String) (cenv : ChildEnv) :
    (cenv.special_ret = KERN_SUCCESS → cenv.look_up_ret = KERN_SUCCESS →
        (childCallback name cenv).2.countP (isDeallocOf cenv.parent_port) = 1 ∧
          (childCallback name cenv).2.getLast? =
            some (.deallocate cenv.parent_port cenv.dealloc_ret)) ∧
      (cenv.special_ret ≠ KERN_SUCCESS ∨ cenv.look_up_ret ≠ KERN_SUCCESS →
        (childCallback name cenv).2.countP (isDeallocOf cenv.parent_port) = 0) := by
  unfold childCallback
  repeat' split
  all_goals refine ⟨fun h1 h2 => ?_, fun h3 => ?_⟩
  all_goals simp_all [isDeallocOf, List.countP_cons, List.countP_nil]

theorem parent_dealloc_swallowed (audit : Bool) (env : Env) (x : Int) :
    (spawn_get_task_port audit { env with dealloc_ret := x }).1 =
      (spawn_get_task_port audit env).1 := by
  obtain ⟨ar, ap, ir, rnd, sr, bp, rr, se, ch, cp, inc, dr⟩ := env
  cases hcb : (childCallback (rendezvousName rnd) ch).1 <;>
    (unfold spawn_get_task_port
     repeat' split) <;>
    simp_all [cstringNew_rendezvousName] <;>
    (repeat' split) <;>
    simp_all

theorem child_dealloc_swallowed (name : String) (cenv : ChildEnv) (x : Int) :
    (childCallback name { cenv with dealloc_ret := x }).1 =
      (childCallback name cenv).1 := by
  obtain ⟨s, b, l, p, sd, t, d⟩ := cenv
  unfold childCallback
  dsimp only
  repeat' split
  all_goals rfl

/-- Claim C6: exactly one `mach_port_deallocate` is issued for the
parent's MachPort, as the last action, on every path on which its
allocation succeeded (and none when the allocation failed); the child
issues exactly one deallocate for the MachPort wrapping the looked-up
parent port, as its last action, on every path on which the lookup
succeeded (and none before it); and the status returned by the deallocate
is swallowed: it never influences the result of either function. -/
theorem C6_release_exactly_once :
    (∀ audit env,
        (env.alloc_ret = KERN_SUCCESS →
          (spawn_get_task_port audit env).2.countP (isDeallocOf env.alloc_port) = 1 ∧
            (spawn_get_task_port audit env).2.getLast? =
              some (.deallocate env.alloc_port env.dealloc_ret)) ∧
          (env.alloc_ret ≠ KERN_SUCCESS →
            (spawn_get_task_port audit env).2.countP (isDeallocOf env.alloc_port) = 0)) ∧
      (∀ name cenv,
        (cenv.special_ret = KERN_SUCCESS → cenv.look_up_ret = KERN_SUCCESS →
          (childCallback name cenv).2.countP (isDeallocOf cenv.parent_port) = 1 ∧
            (childCallback name cenv).2.getLast? =
              some (.deallocate cenv.parent_port cenv.dealloc_ret)) ∧
          (cenv.special_ret ≠ KERN_SUCCESS ∨ cenv.look_up_ret ≠ KERN_SUCCESS →
            (childCallback name cenv).2.countP (isDeallocOf cenv.parent_port) = 0)) ∧
      (∀ audit env x,
        (spawn_get_task_port audit { env with dealloc_ret := x }).1 =
          (spawn_get_task_port audit env).1) ∧
      (∀ name cenv x,
        (childCallback name { cenv with dealloc_ret := x }).1 =
          (childCallback name cenv).1) :=
  ⟨parent_dealloc_count, child_dealloc_count, parent_dealloc_swallowed,
    child_dealloc_swallowed⟩

/-- witness for C6 on `envOK`: one deallocate of port 7 in the parent
trace, one deallocate of port 3 in the child trace. -/
theorem C6_witness :
    ((spawn_get_task_port false envOK).2.countP (isDeallocOf envOK.alloc_port) = 1 ∧
        (spawn_get_task_port false envOK).2.getLast? =
          some (.deallocate envOK.alloc_port envOK.dealloc_ret)) ∧
      (childCallback (rendezvousName 0) envOK.child).2.countP
          (isDeallocOf envOK.child.parent_port) = 1 :=
  ⟨(C6_release_exactly_once.1 false envOK).1 rfl,
    ((C6_release_exactly_once.2.1 (rendezvousName 0) envOK.child).1 rfl rfl).1⟩

/-- Claim C7: the rendezvous name is the simple textual encoding of the
identifier built from the fresh 128-bit random draw, and of nothing
else; two names coincide exactly when the encoded identifiers coincide
(distinct draws give distinct names up to the negligible collision of
the draw); and the name the parent registers with the bootstrap server
is exactly the one generated from that call's draw. -/
theorem C7_fresh_random_name :
    (∀ r, rendezvousName r = encodeSimple (new_v4 r)) ∧
      (∀ r1 r2, rendezvousName r1 = rendezvousName r2 ↔ new_v4 r1 = new_v4 r2) ∧
      (∀ audit env, env.alloc_ret = KERN_SUCCESS → env.insert_ret = KERN_SUCCESS →
        env.special_ret = KERN_SUCCESS →
        Event.register env.bootstrap_port (rendezvousName env.random) env.alloc_port ∈
          (spawn_get_task_port audit env).2) := by
  refine ⟨fun r => rfl, rendezvousName_eq_iff, ?_⟩
  intro audit env h1 h2 h3
  cases hcb : (childCallback (rendezvousName env.random) env.child).1 <;>
    (unfold spawn_get_task_port
     repeat' split) <;>
    simp_all [cstringNew_rendezvousName] <;>
    (repeat' split) <;>
    simp_all

/-- witness for C7 on `envOK`. -/
theorem C7_witness :
    envOK.alloc_ret = KERN_SUCCESS ∧
      Event.register envOK.bootstrap_port (rendezvousName envOK.random)
          envOK.alloc_port ∈ (spawn_get_task_port false envOK).2 :=
  ⟨rfl, C7_fresh_random_name.2.2 false envOK rfl rfl rfl⟩

/-- Claim C8: the first kernel call of the child callback is a fresh
`task_get_special_port` on the child's own task; every bootstrap lookup
it performs uses the bootstrap port that this fresh in-child query
returned; and the callback is unaffected by the bootstrap-port value the
parent captured before the spawn (that value is not even an input of the
child's environment). -/
theorem C8_child_fetches_bootstrap_freshly :
    (∀ name cenv,
        (childCallback name cenv).2.head? =
          some (.get_special_port cenv.task_self TASK_BOOTSTRAP_PORT) ∧
        ∀ b n, Event.look_up b n ∈ (childCallback name cenv).2 →
          b = cenv.bootstrap_port ∧ n = name) ∧
      (∀ (env : Env) (x : Nat) (nm : String),
        childCallback nm ({ env with bootstrap_port := x } : Env).child =
          childCallback nm env.child) := by
  refine ⟨?_, fun env x nm => rfl⟩
  intro name cenv
  unfold childCallback
  repeat' split
  all_goals refine ⟨rfl, ?_⟩
  all_goals intro b n hmem
  all_goals simp_all

/-- witness for C8: the lookup event in the child trace of `envOK` names
the child's own bootstrap port 2. -/
theorem C8_witness :
    (Event.look_up 2 (rendezvousName 0) ∈
        (childCallback (rendezvousName 0) envOK.child).2) ∧
      2 = envOK.child.bootstrap_port ∧ rendezvousName 0 = rendezvousName 0 :=
  ⟨by decide,
    (C8_child_fetches_bootstrap_freshly.1 (rendezvousName 0) envOK.child).2
      2 (rendezvousName 0) (by decide)⟩

/-- Claim C9: without the audit_pid feature no sender identity is
checked: the call's result is unchanged under arbitrary replacement of
the sender's kernel-supplied audit token, and whenever the parent-side
steps succeed and the queued message fits the buffer, the call succeeds
and returns whatever port value that message delivered, whoever sent
it. -/
theorem C9_no_sender_authentication :
    (∀ env t,
        (spawn_get_task_port false
            { env with incoming := { env.incoming with senderToken := t } }).1 =
          (spawn_get_task_port false env).1) ∧
      (∀ env, env.alloc_ret = KERN_SUCCESS → env.insert_ret = KERN_SUCCESS →
        env.special_ret = KERN_SUCCESS → env.register_ret = KERN_SUCCESS →
        env.spawn_sys_err = none →
        (childCallback (rendezvousName env.random) env.child).1 = .ok () →
        env.incoming.size + trailer_size false ≤ size_of_mach_msg_recv_t false →
        (spawn_get_task_port false env).1 =
          .ok (⟨env.child_pid⟩,
            if size_of_mach_msg_send_t ≤ env.incoming.size then env.incoming.descName
            else 0)) := by
  constructor
  · intro env t
    obtain ⟨ar, ap, ir, rnd, sr, bp, rr, se, ch, cp, ⟨sz, dn, st⟩, dr⟩ := env
    by_cases hsz : size_of_mach_msg_recv_t false < sz + trailer_size false <;>
      simp [spawn_get_task_port, mach_msg_receive, hsz]
  · intro env h1 h2 h3 h4 h5 h6 h7
    have h8 : mach_msg_receive false env.incoming =
        .ok { task_port_name :=
                if size_of_mach_msg_send_t ≤ env.incoming.size then env.incoming.descName
                else 0,
              audit_token := env.incoming.senderToken } := by
      unfold mach_msg_receive
      rw [if_neg (by omega)]
    unfold spawn_get_task_port
    simp only [h1, h2, h3, h4, h5, cstringNew_rendezvousName, h6, h8]
    simp

/-- witness for C9 on `envOK`: the delivered descriptor (port 9) is
returned. -/
theorem C9_witness :
    envOK.incoming.size + trailer_size false ≤ size_of_mach_msg_recv_t false ∧
      (spawn_get_task_port false envOK).1 =
        .ok (⟨envOK.child_pid⟩,
          if size_of_mach_msg_send_t ≤ envOK.incoming.size then envOK.incoming.descName
          else 0) :=
  ⟨by decide, C9_no_sender_authentication.2 envOK rfl rfl rfl rfl rfl rfl (by decide)⟩

/-- Claim C10: the simple encoding of the generated identifier never
contains a NUL character, so the CString conversion of the rendezvous
name always succeeds and the name-encoding error branch of
spawn_get_task_port is unreachable. -/
theorem C10_cstring_branch_unreachable :
    (∀ r, cstringNew (rendezvousName r) = some (rendezvousName r)) ∧
      ∀ audit env, (spawn_get_task_port audit env).1 ≠ .error .cstring := by
  refine ⟨cstringNew_rendezvousName, ?_⟩
  intro audit env
  have hcstr := cstringNew_rendezvousName env.random
  cases hcb : (childCallback (rendezvousName env.random) env.child).1 with
  | error e =>
    obtain ⟨op, kr, he⟩ := childCallback_error_ktry _ _ _ hcb
    subst he
    unfold spawn_get_task_port
    repeat' split
    all_goals simp_all
  | ok a =>
    cases a
    unfold spawn_get_task_port
    repeat' split
    all_goals simp_all
    all_goals (repeat' split)
    all_goals simp_all

/-- witness for C10 at draw 0 and environment `envOK`. -/
theorem C10_witness :
    cstringNew (rendezvousName 0) = some (rendezvousName 0) ∧
      (spawn_get_task_port false envOK).1 ≠ .error .cstring :=
  ⟨C10_cstring_branch_unreachable.1 0, C10_cstring_branch_unreachable.2 false envOK⟩

end SpawnTaskPort
